import Mathlib

/-!
Shallow embedding of the mx-detection repository: the ResNext backbone family
(`models/fpn/_resnext.py`), the torch-vocabulary compatibility shim
(`utils/torchglue.py`), and the two training pipelines
(`scripts/train_fcos.py`, `scripts/train_retinanet.py`).
Machine floats are modelled by exact rationals (structural/arithmetic claims)
or reals (transcendental loss kernels).
-/

namespace MxDetection

/-! ### ResNext backbone (`models/fpn/_resnext.py`) -/

/-- The depth table `resnext_spec = {50: [3, 4, 6, 3], 101: [3, 4, 23, 3]}`
(_resnext.py lines 241-242). -/
def resnext_spec (num_layers : ℕ) : Option (List ℕ) :=
  if num_layers = 50 then some [3, 4, 6, 3]
  else if num_layers = 101 then some [3, 4, 23, 3]
  else none

/-- `get_resnext` (_resnext.py lines 274-278): asserts that `num_layers` is a key
of `resnext_spec` and reads the per-stage layer counts used to build the net.
The assertion failure is modelled as `Except.error "InvalidInput"`. -/
def get_resnext (num_layers : ℕ) : Except String (List ℕ) :=
  match resnext_spec num_layers with
  | some layers => .ok layers
  | none => .error "InvalidInput"

/-- `D = int(math.floor(channels * (bottleneck_width / 64)))` of `Block.__init__`
(_resnext.py line 107), in exact arithmetic. -/
def blockD (channels bottleneck_width : ℕ) : ℤ :=
  ⌊(channels : ℚ) * ((bottleneck_width : ℚ) / 64)⌋

/-- `group_width = cardinality * D` of `Block.__init__` (_resnext.py line 108). -/
def blockGroupWidth (channels cardinality bottleneck_width : ℕ) : ℤ :=
  (cardinality : ℤ) * blockD channels bottleneck_width

/-- Output channel count of a bottleneck `Block`: the final 1x1 convolution of the
body emits `channels * 4` channels (_resnext.py line 124); the channel count of a
convolution does not depend on the spatial size of the input. -/
def blockOutChannels (channels : ℕ) : ℕ := channels * 4

/-- Per-stage channel argument of `ResNext.__init__` (_resnext.py lines 198,
208-214): `channels` starts at 64 and is doubled after each stage of the
`layers` spec. -/
def resnextStageChannels : List ℕ → ℕ → List ℕ
  | [], _ => []
  | _ :: rest, ch => ch :: resnextStageChannels rest (ch * 2)

/-- Initializer chosen for the gamma of a normalization layer. -/
inductive GammaInitializer
  | zeros
  | layerDefault
deriving DecidableEq

/-- The gamma initializer of the norm layer that follows the final 1x1
convolution of the `Block` body, exactly as written (_resnext.py lines 125-129):
when `last_gamma` is true the norm layer is built with no `gamma_initializer`
argument (the layer default), otherwise with `gamma_initializer='zeros'`. -/
def blockLastNormGamma (last_gamma : Bool) : GammaInitializer :=
  if last_gamma then .layerDefault else .zeros

/-- Modelled from the spec and from the docstring of `Block` (_resnext.py lines
92-93: "last_gamma : bool -- Whether to initialize the gamma of the last
BatchNorm layer in each bottleneck to zero"): with `last_gamma` true the gamma
is zero-initialized, otherwise it keeps the layer default. -/
def blockLastNormGammaDocumented (last_gamma : Bool) : GammaInitializer :=
  if last_gamma then .zeros else .layerDefault

/-! ### Compatibility shim (`utils/torchglue.py`) -/

/-- Modelled from the spec: the external `BilinearResize2D` primitive scales the
height and width of its input feature map by the given factors (the primitive
itself is part of the tensor library, not of this repository). The model tracks
the spatial dimensions only. -/
def bilinearResize2D (scaleHeight scaleWidth : ℚ) (h w : ℚ) : ℚ × ℚ :=
  (h * scaleHeight, w * scaleWidth)

/-- `nn.Upsample(scale_factor, mode)` of torchglue.py lines 46-55: the returned
block calls `BilinearResize2D` with both scale factors equal to `scale_factor`;
the `mode` argument is never read. -/
def upsampleForward (scale_factor : ℚ) (mode : String) (h w : ℚ) : ℚ × ℚ :=
  bilinearResize2D scale_factor scale_factor h w

/-! ### Loss kernels of the FCOS pipeline (`scripts/train_fcos.py`) -/

/-- `BCELoss.infer_shape` (train_fcos.py lines 38-44): asserts that the two input
shapes are equal (the failure is modelled as `Except.error "InvalidInput"`) and
declares the input shapes unchanged plus a single output of the first input's
shape. -/
def bceLossInferShape (s0 s1 : List ℕ) :
    Except String (List (List ℕ) × List (List ℕ)) :=
  if s0 = s1 then .ok ([s0, s1], [s0]) else .error "InvalidInput"

/-- `L2Loss.infer_shape` (train_fcos.py lines 77-79): same contract as
`BCELoss.infer_shape`. -/
def l2LossInferShape (s0 s1 : List ℕ) :
    Except String (List (List ℕ) × List (List ℕ)) :=
  if s0 = s1 then .ok ([s0, s1], [s0]) else .error "InvalidInput"

/-- `L2Loss.forward` (train_fcos.py lines 67-69): element-wise `(y - target) ** 2`. -/
def l2LossForward (y target : List ℚ) : List ℚ :=
  List.zipWith (fun a b => (a - b) ^ 2) y target

/-! ### FCOS per-batch loss combination (`scripts/train_fcos.py` lines 388-399)

The element-wise values produced by the external kernels (`mobula.op.IoULoss`,
`BCELoss`, `mobula.op.FocalLoss`) enter the combination as lists of already
computed per-position numbers; the target tensor's channel 0 (`mask`, the
positive mask) and channel 5 (`centerness`) enter as lists of the same layout. -/

/-- Line 393-395: `mobula.op.IoULoss(...) * targets[:, 5:6] / (targets[:, 5].sum() + 1)` —
each per-position IoU loss is weighted by the centerness channel and divided by
`sum(centerness) + 1`. -/
def fcosIouTerm (iouVals centerness : List ℚ) : List ℚ :=
  (List.zipWith (· * ·) iouVals centerness).map (fun x => x / (centerness.sum + 1))

/-- Line 392 and 396: `num_pos = targets[:, 0].sum() + 1` and
`BCELoss(preds[:, 4], targets[:, 5]) * targets[:, 0] / num_pos`. -/
def fcosCenterTerm (bceVals mask : List ℚ) : List ℚ :=
  (List.zipWith (· * ·) bceVals mask).map (fun x => x / (mask.sum + 1))

/-- Line 398: `mobula.op.FocalLoss(...) / num_pos`. -/
def fcosClsTerm (focalVals mask : List ℚ) : List ℚ :=
  focalVals.map (fun x => x / (mask.sum + 1))

/-- Line 399: `loss_total = loss_center.sum() + iou_loss.sum() + loss_cls.sum()`. -/
def fcosLossTotal (mask centerness iouVals bceVals focalVals : List ℚ) : ℚ :=
  (fcosCenterTerm bceVals mask).sum + (fcosIouTerm iouVals centerness).sum +
    (fcosClsTerm focalVals mask).sum

/-- Modelled from the spec's words, for comparison with `fcosLossTotal`:
"per-batch loss = sum(centerness_loss)/num_pos + sum(IoU_loss * positive_mask)
/ sum(positive_mask) + sum(focal_cls_loss)/num_pos, num_pos = sum(positive_mask)
+ 1, positive_mask = channel 0" (reading `centerness_loss` charitably as the
mask-weighted BCE the code computes). -/
def fcosLossClaimed (mask iouVals bceVals focalVals : List ℚ) : ℚ :=
  (List.zipWith (· * ·) bceVals mask).sum / (mask.sum + 1) +
    (List.zipWith (· * ·) iouVals mask).sum / mask.sum +
    focalVals.sum / (mask.sum + 1)

/-! ### RetinaNet target padding and parameter selection (`scripts/train_retinanet.py`) -/

/-- `RetinaNetTargetGenerator.__call__` (train_retinanet.py lines 123-133),
box-padding part: asserts `len(bboxes) <= max_bbox_number` (modelled as
`Except.error "InvalidInput"`), then fills a fresh `(max_bbox_number, 5)` array
with `-1` and overwrites its first `len(bboxes)` rows with the input rows. -/
def retinaNetPadBoxes (maxN : ℕ) (bboxes : List (List ℚ)) :
    Except String (List (List ℚ)) :=
  if bboxes.length ≤ maxN then
    .ok ((List.range maxN).map (fun i => bboxes.getD i (List.replicate 5 (-1))))
  else .error "InvalidInput"

/-- A gluon parameter as seen by the selection loop: its name and its
`grad_req` string. -/
structure MxParam where
  name : String
  gradReq : String
deriving DecidableEq

/-- Boolean test for `needle` being a contiguous prefix of `hay`. -/
def startsWithChars : List Char → List Char → Bool
  | [], _ => true
  | _ :: _, [] => false
  | c :: cs, d :: ds => c == d && startsWithChars cs ds

/-- Boolean test for `needle` occurring contiguously inside `hay`
(Python's `needle in hay` on strings). -/
def containsChars (needle : List Char) : List Char → Bool
  | [] => needle.isEmpty
  | c :: rest => startsWithChars needle (c :: rest) || containsChars needle rest

/-- `"running" in p` of train_retinanet.py line 212. -/
def nameContainsRunning (s : String) : Bool :=
  containsChars "running".toList s.toList

/-- One iteration of the parameter-selection loop (train_retinanet.py lines
210-223): `ignore` is set when the parameter's `grad_req` is already `"null"`
and its name does not contain `"running"`, or when some fixed-parameter pattern
matches the name (in which case `grad_req` is overwritten with `"null"`); the
parameter enters `params_to_train` only if `not ignore` and its (possibly
updated) `grad_req` is not `"null"`. The regex matcher `re.match` is an
arbitrary boolean oracle `matcher`. -/
def retinaIgnore0 (p : MxParam) : Bool :=
  p.gradReq == "null" && !(nameContainsRunning p.name)

/-- Lines 215-221: some fixed-parameter pattern `re.match`-es the name. -/
def retinaHit (fixedPatterns : Option (List String))
    (matcher : String → String → Bool) (p : MxParam) : Bool :=
  match fixedPatterns with
  | none => false
  | some fs => fs.any (fun f => matcher f p.name)

/-- Line 220: `params_all[p].grad_req = 'null'` on a pattern hit. -/
def retinaUpdated (fixedPatterns : Option (List String))
    (matcher : String → String → Bool) (p : MxParam) : MxParam :=
  if retinaHit fixedPatterns matcher p then { p with gradReq := "null" } else p

/-- Line 222: `if not ignore and params_all[p].grad_req != "null"`. -/
def retinaKeep (fixedPatterns : Option (List String))
    (matcher : String → String → Bool) (p : MxParam) : Bool :=
  !(retinaIgnore0 p || retinaHit fixedPatterns matcher p) &&
    (retinaUpdated fixedPatterns matcher p).gradReq != "null"

def retinaSelectStep (fixedPatterns : Option (List String))
    (matcher : String → String → Bool) (p : MxParam) : MxParam × Bool :=
  (retinaUpdated fixedPatterns matcher p, retinaKeep fixedPatterns matcher p)

/-- The resulting `params_to_train` collection (train_retinanet.py lines
207-223), as the sublist of parameters the loop keeps. -/
def retinaParamsToTrain (fixedPatterns : Option (List String))
    (matcher : String → String → Bool) (params : List MxParam) : List MxParam :=
  params.filterMap (fun p =>
    let r := retinaSelectStep fixedPatterns matcher p
    if r.2 then some r.1 else none)

/-! ### Heap model for the frame-effect claim (C10)

Numpy arrays are heap-allocated values; a call receives a reference into the
heap. `copy` allocates a fresh cell, in-place updates (`arr[...] = ...`,
`arr[:, 4] += 1`) write to the cell the local name refers to. -/

/-- A ground-truth box array: a list of rows of rationals. -/
abbrev Mat := List (List ℚ)

/-- A heap of arrays; references are allocation indices below `next`. -/
structure Store where
  heap : ℕ → Mat
  next : ℕ

def storeRead (s : Store) (r : ℕ) : Mat := s.heap r

def storeWrite (s : Store) (r : ℕ) (m : Mat) : Store :=
  ⟨Function.update s.heap r m, s.next⟩

def storeAlloc (s : Store) (m : Mat) : Store × ℕ :=
  (⟨Function.update s.heap s.next m, s.next + 1⟩, s.next)

/-- `bboxes[:, 4] += 1` as a value operation on a box array. -/
def incrClassCol (m : Mat) : Mat :=
  m.map (fun row => row.set 4 (row.getD 4 0 + 1))

/-- The effect of `FCOSTargetGenerator.__call__` (train_fcos.py lines 213-228)
on the box heap: `bboxes = bboxes.copy()` allocates a fresh array holding the
caller's contents, then `bboxes[:, 4] += 1` writes the class-id shift into that
fresh array; the rest of the body only reads it (`bboxes.astype(np.float32)`
copies again). Returns the final store and the local reference. -/
def fcosTargetCall (s : Store) (bboxesRef : ℕ) : Store × ℕ :=
  let a := storeAlloc s (storeRead s bboxesRef)
  let s2 := storeWrite a.1 a.2 (incrClassCol (storeRead a.1 a.2))
  (s2, a.2)

/-- `bboxes_padded[:len(bboxes), :5] = bboxes` as a value operation on the
padded array. -/
def overwriteRows (base rows : Mat) : Mat :=
  (List.range base.length).map
    (fun i => if i < rows.length then rows.getD i [] else base.getD i [])

/-- The effect of `RetinaNetTargetGenerator.__call__` (train_retinanet.py lines
123-133) on the box heap: `bboxes = bboxes.copy()` allocates a fresh copy,
`np.ones((200, 5)) * -1` allocates the sentinel-filled padded array, and the
slice assignment writes the copied rows into that fresh padded array. Returns
the final store and the reference to the padded array. -/
def retinaTargetCall (s : Store) (bboxesRef : ℕ) : Store × ℕ :=
  let a := storeAlloc s (storeRead s bboxesRef)
  let b := storeAlloc a.1 (List.replicate 200 (List.replicate 5 (-1)))
  let s3 := storeWrite b.1 b.2 (overwriteRows (storeRead b.1 b.2) (storeRead b.1 a.2))
  (s3, b.2)

/-! ### IoU loss (`scripts/train_fcos.py` lines 82-126), in exact real arithmetic -/

/-- One row of left/top/right/bottom box distances. -/
structure LTRB where
  l : ℝ
  t : ℝ
  r : ℝ
  b : ℝ

/-- The left-folded running maximum `self.max(tl, tr, bl, br, tl_hat, tr_hat,
bl_hat, br_hat, tl_i, tr_i, bl_i, br_i)` of IoULoss.forward line 121. -/
noncomputable def iouMax12 (tl tr bl br tlh trh blh brh tli tri bli bri : ℝ) : ℝ :=
  max (max (max (max (max (max (max (max (max (max (max tl tr) bl) br) tlh)
    trh) blh) brh) tli) tri) bli) bri

/-- Shifted exponential sum over four corner sums: the common form of `I`, `X`
and `X_hat` of IoULoss.forward lines 122-124. -/
noncomputable def iouExpSum (p q u v maxv : ℝ) : ℝ :=
  Real.exp (p - maxv) + Real.exp (q - maxv) + Real.exp (u - maxv) +
    Real.exp (v - maxv)

/-- IoULoss.forward lines 121-126 from the twelve corner sums onward:
`I`, `X` and `X_hat` are log-sum-exp terms shifted by the running maximum,
`I_over_U = I / (X + X_hat - I) + 1e-7`, result `-log(I_over_U)`. -/
noncomputable def iouCore (tl tr bl br tlh trh blh brh tli tri bli bri : ℝ) : ℝ :=
  -Real.log
    (iouExpSum tli tri bli bri (iouMax12 tl tr bl br tlh trh blh brh tli tri bli bri) /
      (iouExpSum tl tr bl br (iouMax12 tl tr bl br tlh trh blh brh tli tri bli bri) +
        iouExpSum tlh trh blh brh (iouMax12 tl tr bl br tlh trh blh brh tli tri bli bri) -
        iouExpSum tli tri bli bri (iouMax12 tl tr bl br tlh trh blh brh tli tri bli bri)) +
      1e-7)

/-- Lines 98-99: `target = mx.nd.maximum(target, ones); target = log(target)`. -/
noncomputable def iouTargetTransform (x : ℝ) : ℝ := Real.log (max x 1)

/-- IoULoss.forward (train_fcos.py lines 95-126) on one row: floor the target
distances at 1 and log-transform them, build the eight corner sums of target
and prediction and the four corner sums of the coordinate-wise minimum, and
feed all twelve into `iouCore`. -/
noncomputable def iouLossForward (pred target : LTRB) : ℝ :=
  let tg : LTRB := ⟨iouTargetTransform target.l, iouTargetTransform target.t,
    iouTargetTransform target.r, iouTargetTransform target.b⟩
  iouCore (tg.t + tg.l) (tg.t + tg.r) (tg.b + tg.l) (tg.b + tg.r)
    (pred.t + pred.l) (pred.t + pred.r) (pred.b + pred.l) (pred.b + pred.r)
    (min tg.t pred.t + min tg.l pred.l) (min tg.t pred.t + min tg.r pred.r)
    (min tg.b pred.b + min tg.l pred.l) (min tg.b pred.b + min tg.r pred.r)

/-! ### Helper lemmas -/

theorem iouMax12_shift (tl tr bl br tlh trh blh brh tli tri bli bri c : ℝ) :
    iouMax12 (tl + c) (tr + c) (bl + c) (br + c) (tlh + c) (trh + c) (blh + c)
        (brh + c) (tli + c) (tri + c) (bli + c) (bri + c) =
      iouMax12 tl tr bl br tlh trh blh brh tli tri bli bri + c := by
  simp [iouMax12, max_add_add_right]

theorem iouExpSum_shift (p q u v m c : ℝ) :
    iouExpSum (p + c) (q + c) (u + c) (v + c) (m + c) = iouExpSum p q u v m := by
  simp [iouExpSum, add_sub_add_right_eq_sub]

theorem iouExpSum_pos (p q u v m : ℝ) : 0 < iouExpSum p q u v m := by
  rw [iouExpSum]
  positivity

theorem neg_log_div_self_eps (S : ℝ) (hS : 0 < S) :
    -Real.log (S / (S + S - S) + 1e-7) = -Real.log (1 + 1e-7) := by
  rw [show S + S - S = S from by ring, div_self hS.ne']

theorem iouCore_diag (a b c d : ℝ) :
    iouCore a b c d a b c d a b c d = -Real.log (1 + 1e-7) := by
  rw [iouCore]
  exact neg_log_div_self_eps _ (iouExpSum_pos _ _ _ _ _)

theorem sum_map_div (l : List ℚ) (d : ℚ) :
    (l.map (fun x => x / d)).sum = l.sum / d := by
  induction l with
  | nil => simp
  | cons a l ih => simp [ih, add_div]

theorem getD_range_map {α : Type} (f : ℕ → α) (n i : ℕ) (hi : i < n) (d : α) :
    ((List.range n).map f).getD i d = f i := by
  rw [List.getD_eq_getElem?_getD, List.getElem?_map, List.getElem?_range hi]
  rfl

/-! ### Theorems -/

/-- C4: `get_resnext` fails with InvalidInput for every `num_layers` other than
50 and 101; for 50 it succeeds with layer counts `[3,4,6,3]` and for 101 with
`[3,4,23,3]`. -/
theorem get_resnext_depths (n : ℕ) (h50 : n ≠ 50) (h101 : n ≠ 101) :
    get_resnext n = .error "InvalidInput" ∧
    get_resnext 50 = .ok [3, 4, 6, 3] ∧
    get_resnext 101 = .ok [3, 4, 23, 3] := by
  refine ⟨?_, rfl, rfl⟩
  simp [get_resnext, resnext_spec, h50, h101]

/-- C5 counterexample: the second stage of the depth-50 backbone passes
`channels = 128` to its blocks, and there `D = 8`, not the claimed `D = 4`. -/
theorem resnext50_block_dims_ce :
    (resnextStageChannels [3, 4, 6, 3] 64).getD 1 0 = 128 ∧
    blockD 128 4 ≠ 4 := by
  constructor
  · rfl
  · norm_num [blockD]

/-- C5 (amended): for the depth-50 backbone with `cardinality = 32` and
`bottleneck_width = 4`, the four stages pass channels 64, 128, 256, 512 to
their blocks, and the block of stage `i` computes `D = 4 * 2 ^ i` and
`group_width = 128 * 2 ^ i` (so `D = 4` and `group_width = 128` hold only in
the first stage) and emits `channels * 4` output channels, a channel count
independent of the input spatial size. -/
theorem resnext50_block_dims :
    resnextStageChannels [3, 4, 6, 3] 64 = [64, 128, 256, 512] ∧
    (resnextStageChannels [3, 4, 6, 3] 64).map
        (fun ch => (blockD ch 4, blockGroupWidth ch 32 4, blockOutChannels ch)) =
      [(4, 128, 256), (8, 256, 512), (16, 512, 1024), (32, 1024, 2048)] := by
  constructor
  · rfl
  · norm_num [resnextStageChannels, blockD, blockGroupWidth, blockOutChannels]

/-- C8: for every positive `scale_factor` and every `mode` argument, the shim's
`nn.Upsample(scale_factor, mode)` block performs a bilinear spatial resize of
its input by `scale_factor` in both the height and the width dimension; the
`mode` argument has no effect on the result. -/
theorem upsample_scales_both_dims (sf : ℚ) (hsf : 0 < sf) (mode : String)
    (h w : ℚ) :
    upsampleForward sf mode h w = (h * sf, w * sf) ∧
    upsampleForward sf mode h w = upsampleForward sf "bilinear" h w :=
  ⟨rfl, rfl⟩

theorem upsample_scales_both_dims_w :
    (0 : ℚ) < 2 ∧
    (upsampleForward 2 "nearest" 7 5 = (7 * 2, 5 * 2) ∧
      upsampleForward 2 "nearest" 7 5 = upsampleForward 2 "bilinear" 7 5) :=
  ⟨by norm_num, upsample_scales_both_dims 2 (by norm_num) "nearest" 7 5⟩

/-- C2: both custom loss kernels (`BCELoss`, `L2Loss`) fail with InvalidInput
when the prediction and target shapes differ, and on equally shaped inputs the
declared output tensor shape equals the (common) input shape; the executable
`L2Loss.forward` indeed produces element-wise output of the same length. -/
theorem loss_kernels_shape_contract (s0 s1 : List ℕ) (y t : List ℚ) :
    (s0 ≠ s1 →
      bceLossInferShape s0 s1 = .error "InvalidInput" ∧
      l2LossInferShape s0 s1 = .error "InvalidInput") ∧
    (s0 = s1 →
      bceLossInferShape s0 s1 = .ok ([s0, s1], [s0]) ∧
      l2LossInferShape s0 s1 = .ok ([s0, s1], [s0])) ∧
    (y.length = t.length → (l2LossForward y t).length = y.length) := by
  refine ⟨fun hne => ?_, fun heq => ?_, fun hlen => ?_⟩
  · exact ⟨by simp [bceLossInferShape, hne], by simp [l2LossInferShape, hne]⟩
  · exact ⟨by simp [bceLossInferShape, heq], by simp [l2LossInferShape, heq]⟩
  · simp [l2LossForward, hlen]

theorem loss_kernels_shape_contract_w :
    (bceLossInferShape [2, 3] [2, 4] = .error "InvalidInput" ∧
      l2LossInferShape [2, 3] [2, 4] = .error "InvalidInput") ∧
    (bceLossInferShape [2, 3] [2, 3] = .ok ([[2, 3], [2, 3]], [[2, 3]]) ∧
      l2LossInferShape [2, 3] [2, 3] = .ok ([[2, 3], [2, 3]], [[2, 3]])) ∧
    (l2LossForward [1, 2] [3, 4]).length = 2 :=
  ⟨(loss_kernels_shape_contract [2, 3] [2, 4] [] []).1 (by decide),
   (loss_kernels_shape_contract [2, 3] [2, 3] [] []).2.1 rfl,
   (loss_kernels_shape_contract [] [] [1, 2] [3, 4]).2.2 rfl⟩

theorem get_resnext_depths_w :
    get_resnext 77 = .error "InvalidInput" ∧
    get_resnext 50 = .ok [3, 4, 6, 3] ∧
    get_resnext 101 = .ok [3, 4, 23, 3] :=
  get_resnext_depths 77 (by decide) (by decide)

/-- C6 (code bug): the code of `Block.__init__` (_resnext.py lines 125-129)
zero-initializes the gamma of the last norm layer exactly when `last_gamma` is
false and keeps the layer default when it is true — the opposite of the claim
and of the class's own docstring, as this evaluation shows. -/
theorem block_last_gamma_inverted :
    blockLastNormGamma true = .layerDefault ∧
    blockLastNormGamma false = .zeros ∧
    (∀ b, blockLastNormGamma b ≠ blockLastNormGammaDocumented b) := by
  refine ⟨rfl, rfl, ?_⟩
  decide

/-- C1 counterexample: one position with positive mask 1, centerness target 0,
IoU loss 1 and zero BCE/focal losses. The code's loss (which weights the IoU
loss by the centerness channel and divides by `sum(centerness) + 1`) is 0, while
the claimed formula (weight by the positive mask, divide by `sum(positive_mask)`)
gives 1. -/
theorem fcos_loss_claim_ce :
    fcosLossTotal [1] [0] [1] [0] [0] ≠ fcosLossClaimed [1] [1] [0] [0] := by
  norm_num [fcosLossTotal, fcosLossClaimed, fcosCenterTerm, fcosIouTerm,
    fcosClsTerm]

/-- C1 (amended): the per-batch loss equals
`sum(centerness_bce * positive_mask)/num_pos
 + sum(IoU_loss * centerness_target)/(sum(centerness_target) + 1)
 + sum(focal_cls_loss)/num_pos`,
with `num_pos = sum(positive_mask) + 1`, the positive mask being channel 0 and
the IoU weight being the centerness channel 5 of the dense target tensor. -/
theorem fcos_loss_formula (mask centerness iouVals bceVals focalVals : List ℚ) :
    fcosLossTotal mask centerness iouVals bceVals focalVals =
      (List.zipWith (· * ·) bceVals mask).sum / (mask.sum + 1) +
        (List.zipWith (· * ·) iouVals centerness).sum / (centerness.sum + 1) +
        focalVals.sum / (mask.sum + 1) := by
  simp only [fcosLossTotal, fcosCenterTerm, fcosIouTerm, fcosClsTerm,
    sum_map_div]

/-- C3: for at most 200 input boxes (each a 5-column row) the padding adapter
returns a `(200, 5)` array whose first `len(bboxes)` rows are the input rows and
whose remaining rows are `-1` in every column; for more than 200 boxes it fails
with InvalidInput. -/
theorem retinanet_pad_spec (bboxes : List (List ℚ))
    (hrows : ∀ row ∈ bboxes, row.length = 5) :
    (bboxes.length ≤ 200 →
      ∃ padded, retinaNetPadBoxes 200 bboxes = .ok padded ∧
        padded.length = 200 ∧
        (∀ row ∈ padded, row.length = 5) ∧
        (∀ i, i < bboxes.length → padded.getD i [] = bboxes.getD i []) ∧
        (∀ i, bboxes.length ≤ i → i < 200 →
          padded.getD i [] = List.replicate 5 (-1))) ∧
    (200 < bboxes.length → retinaNetPadBoxes 200 bboxes = .error "InvalidInput") := by
  constructor
  · intro hle
    refine ⟨_, by rw [retinaNetPadBoxes, if_pos hle], ?_, ?_, ?_, ?_⟩
    · simp
    · intro row hrow
      rcases List.mem_map.mp hrow with ⟨i, _, hrow⟩
      by_cases hi : i < bboxes.length
      · rw [← hrow, List.getD_eq_getElem _ _ hi]
        exact hrows _ (List.getElem_mem hi)
      · rw [← hrow, List.getD_eq_default _ _ (Nat.le_of_not_lt hi)]
        simp
    · intro i hi
      rw [getD_range_map _ _ _ (lt_of_lt_of_le hi hle),
        List.getD_eq_getElem _ _ hi, List.getD_eq_getElem _ _ hi]
    · intro i hge hi
      rw [getD_range_map _ _ _ hi, List.getD_eq_default _ _ hge]
  · intro hgt
    rw [retinaNetPadBoxes, if_neg (by omega)]

theorem retinanet_pad_spec_w :
    (∃ padded,
      retinaNetPadBoxes 200 [[0, 0, 10, 10, 2]] = .ok padded ∧
        padded.length = 200 ∧
        padded.getD 0 [] = [0, 0, 10, 10, 2] ∧
        padded.getD 7 [] = List.replicate 5 (-1)) ∧
    retinaNetPadBoxes 200 (List.replicate 201 (List.replicate 5 0)) =
      .error "InvalidInput" := by
  constructor
  · obtain ⟨p, hp, hlen, _, hfirst, hrest⟩ :=
      (retinanet_pad_spec [[0, 0, 10, 10, 2]] (by simp)).1 (by simp)
    exact ⟨p, hp, hlen, hfirst 0 (by simp), hrest 7 (by simp) (by norm_num)⟩
  · exact (retinanet_pad_spec (List.replicate 201 (List.replicate 5 0))
      (fun row hrow => by rw [List.eq_of_mem_replicate hrow]; rfl)).2
      (by rw [List.length_replicate]; norm_num)

/-- C9: whatever the fixed-parameter patterns, the regex matcher's behavior and
the parameter list, `params_to_train` never contains a parameter whose
`grad_req` is `"null"` — in particular not one whose name contains `"running"`,
which line 212 exempts only from the log message, since line 222 re-checks
`grad_req != "null"` before insertion. -/
theorem retina_params_to_train_no_null (fixedPatterns : Option (List String))
    (matcher : String → String → Bool) (params : List MxParam) (q : MxParam)
    (hq : q ∈ retinaParamsToTrain fixedPatterns matcher params) :
    q.gradReq ≠ "null" := by
  rcases List.mem_filterMap.mp hq with ⟨p, _, hkeep⟩
  by_cases h2 : (retinaSelectStep fixedPatterns matcher p).2
  · rw [if_pos h2] at hkeep
    have hq1 : (retinaSelectStep fixedPatterns matcher p).1 = q :=
      Option.some.inj hkeep
    have hkp : retinaKeep fixedPatterns matcher p = true := h2
    rw [retinaKeep, Bool.and_eq_true, bne_iff_ne] at hkp
    rw [← hq1]
    exact hkp.2
  · rw [if_neg h2] at hkeep
    exact absurd hkeep (by simp)

theorem retina_params_to_train_no_null_w :
    MxParam.gradReq ⟨"fpn_p3_weight", "write"⟩ ≠ "null" :=
  retina_params_to_train_no_null (some ["bn_running_var"]) (fun f s => f == s)
    [⟨"fpn_p3_weight", "write"⟩, ⟨"bn_running_mean", "null"⟩]
    ⟨"fpn_p3_weight", "write"⟩ (by decide)

/-- C7 counterexample: with the target box distances `(1,1,1,1)` (whose
floored-log transform is `(0,0,0,0)`) and the identical prediction `(0,0,0,0)`,
the IoU loss is `-log(1 + 1e-7)`, which is strictly negative, not 0: the
`+ 1e-7` epsilon is added to an IoU ratio that is already exactly 1. -/
theorem iou_loss_zero_ce : iouLossForward ⟨0, 0, 0, 0⟩ ⟨1, 1, 1, 1⟩ ≠ 0 := by
  have h1 : iouTargetTransform 1 = 0 := by
    rw [iouTargetTransform, max_self, Real.log_one]
  have hv : iouLossForward ⟨0, 0, 0, 0⟩ ⟨1, 1, 1, 1⟩ = -Real.log (1 + 1e-7) := by
    simp only [iouLossForward, h1, min_self, add_zero]
    exact iouCore_diag 0 0 0 0
  rw [hv, neg_ne_zero]
  exact (Real.log_pos (by norm_num)).ne'

/-- C7 (amended): the IoU loss value is unchanged when all twelve corner-sum
quantities entering its log-sum-exp step are shifted by the same additive
constant; and whenever the predicted box distances equal the floored-at-1,
log-transformed target box distances, the loss equals the constant
`-log(1 + 1e-7)` (approximately `-1e-7`), not 0. -/
theorem iou_loss_shift_invariant_and_identical :
    (∀ tl tr bl br tlh trh blh brh tli tri bli bri c : ℝ,
      iouCore (tl + c) (tr + c) (bl + c) (br + c) (tlh + c) (trh + c) (blh + c)
          (brh + c) (tli + c) (tri + c) (bli + c) (bri + c) =
        iouCore tl tr bl br tlh trh blh brh tli tri bli bri) ∧
    (∀ pred target : LTRB,
      pred.l = iouTargetTransform target.l →
      pred.t = iouTargetTransform target.t →
      pred.r = iouTargetTransform target.r →
      pred.b = iouTargetTransform target.b →
      iouLossForward pred target = -Real.log (1 + 1e-7)) := by
  constructor
  · intro tl tr bl br tlh trh blh brh tli tri bli bri c
    simp only [iouCore, iouMax12_shift, iouExpSum_shift]
  · intro pred target h1 h2 h3 h4
    simp only [iouLossForward, h1, h2, h3, h4, min_self]
    exact iouCore_diag _ _ _ _

theorem iou_loss_shift_invariant_and_identical_w :
    iouCore (2 + 1) (3 + 1) (5 + 1) (7 + 1) (2 + 1) (3 + 1) (5 + 1) (7 + 1)
        (2 + 1) (3 + 1) (5 + 1) (7 + 1) = iouCore 2 3 5 7 2 3 5 7 2 3 5 7 ∧
    iouLossForward ⟨0, 0, 0, 0⟩ ⟨1, 1, 1, 1⟩ = -Real.log (1 + 1e-7) := by
  have ht : (LTRB.mk 0 0 0 0).l = iouTargetTransform (LTRB.mk 1 1 1 1).l := by
    show (0 : ℝ) = iouTargetTransform 1
    rw [iouTargetTransform, max_self, Real.log_one]
  refine ⟨iou_loss_shift_invariant_and_identical.1 2 3 5 7 2 3 5 7 2 3 5 7 1,
    iou_loss_shift_invariant_and_identical.2 ⟨0, 0, 0, 0⟩ ⟨1, 1, 1, 1⟩ ht ht ht ht⟩

/-- C10: neither target-generation adapter mutates the caller's bounding-box
array: after either call, reading the caller's reference yields the same array
as before, because the FCOS adapter increments the class-id column of a fresh
copy and the RetinaNet adapter writes its padding into a freshly allocated
sentinel array. -/
theorem target_generators_no_mutation (s : Store) (r : ℕ) (hr : r < s.next) :
    storeRead (fcosTargetCall s r).1 r = storeRead s r ∧
    storeRead (retinaTargetCall s r).1 r = storeRead s r := by
  have h1 : r ≠ s.next := Nat.ne_of_lt hr
  have h2 : r ≠ s.next + 1 := by omega
  constructor
  · simp [fcosTargetCall, storeAlloc, storeWrite, storeRead,
      Function.update_noteq h1]
  · simp [retinaTargetCall, storeAlloc, storeWrite, storeRead,
      Function.update_noteq h1, Function.update_noteq h2]

theorem target_generators_no_mutation_w :
    (0 : ℕ) < 1 ∧
    (storeRead (fcosTargetCall ⟨fun _ => [[3, 4, 5, 6, 0]], 1⟩ 0).1 0 =
        storeRead ⟨fun _ => [[3, 4, 5, 6, 0]], 1⟩ 0 ∧
      storeRead (retinaTargetCall ⟨fun _ => [[3, 4, 5, 6, 0]], 1⟩ 0).1 0 =
        storeRead ⟨fun _ => [[3, 4, 5, 6, 0]], 1⟩ 0) :=
  ⟨Nat.zero_lt_one,
    target_generators_no_mutation ⟨fun _ => [[3, 4, 5, 6, 0]], 1⟩ 0 Nat.zero_lt_one⟩

end MxDetection
